import Mathlib

/-!
Verification of the Network-Speed-Test repository (server.py / client.py).

The development shallowly embeds the wire codec, the TCP and UDP server
handlers, the UDP transfer client's receive loop and the discovery listener.
Byte strings are modelled as `List Nat` with each element below 256; Python
`struct` packing/unpacking (format `!` = big endian) is modelled with explicit
base-256 arithmetic; socket loops are modelled as functions over the list of
datagrams delivered before the relevant timeout fires.
-/

namespace SpeedTest

/-! ## Protocol constants and the wire codec -/

/-- Protocol constant `MAGIC_COOKIE` (server.py:13, client.py:9). -/
def MAGIC_COOKIE : Nat := 0xabcddcba

/-- Protocol constant `OFFER_TYPE` (server.py:14, client.py:10). -/
def OFFER_TYPE : Nat := 0x2

/-- Protocol constant `REQUEST_TYPE` (server.py:15, client.py:11). -/
def REQUEST_TYPE : Nat := 0x3

/-- Protocol constant `PAYLOAD_TYPE` (server.py:16, client.py:12). -/
def PAYLOAD_TYPE : Nat := 0x4

/-- A byte string: a list of naturals, each intended to be `< 256`. -/
abbrev Bytes := List Nat

/-- Big-endian value of a byte string (how `struct.unpack` with `!` reads a
field: most significant byte first). -/
def beVal (bs : Bytes) : Nat := bs.foldl (fun a b => a * 256 + b) 0

/-- Big-endian 2-byte encoding of `n` (struct format `H`), as `struct.pack`
produces for an in-range value. -/
def u16be (n : Nat) : Bytes := [n / 256 % 256, n % 256]

/-- Big-endian 4-byte encoding of `n` (struct format `I`). -/
def u32be (n : Nat) : Bytes :=
  [n / 16777216 % 256, n / 65536 % 256, n / 256 % 256, n % 256]

/-- Big-endian 8-byte encoding of `n` (struct format `Q`). -/
def u64be (n : Nat) : Bytes :=
  [n / 72057594037927936 % 256, n / 281474976710656 % 256,
   n / 1099511627776 % 256, n / 4294967296 % 256,
   n / 16777216 % 256, n / 65536 % 256, n / 256 % 256, n % 256]

/-- The four fields of an Offer message, as unpacked by
`struct.unpack('!IBHH', data)` in `listen_for_offers` (client.py:40). -/
structure Offer where
  magic_cookie : Nat
  message_type : Nat
  server_udp_port : Nat
  server_tcp_port : Nat
deriving DecidableEq

/-- `struct.unpack('!IBHH', data)` (client.py:40): succeeds exactly on
9-byte input, reading cookie (bytes 0-3), type (byte 4), UDP port
(bytes 5-6), TCP port (bytes 7-8), all big endian; any other length raises
`struct.error`, modelled as `none`. -/
def unpackOffer (data : Bytes) : Option Offer :=
  if data.length = 9 then
    some { magic_cookie := beVal (data.take 4)
           message_type := beVal ((data.drop 4).take 1)
           server_udp_port := beVal ((data.drop 5).take 2)
           server_tcp_port := beVal ((data.drop 7).take 2) }
  else none

/-- `struct.pack('!IBHH', cookie, type, udp_port, tcp_port)` as used in
`udp_offer_sender` (server.py:46): 9 bytes, big endian. Each field is
reduced to its field width, which agrees with `struct.pack` on in-range
values. -/
def packOffer (o : Offer) : Bytes :=
  u32be o.magic_cookie ++ [o.message_type % 256] ++
    u16be o.server_udp_port ++ u16be o.server_tcp_port

/-- `struct.pack('!IBQ', MAGIC_COOKIE, REQUEST_TYPE, segment_size)`: the
13-byte Request datagram built by `initiate_udp_test` (client.py:159). -/
def packRequest (segment_size : Nat) : Bytes :=
  u32be MAGIC_COOKIE ++ [REQUEST_TYPE] ++ u64be segment_size

/-- `struct.pack('!IBQQ', MAGIC_COOKIE, PAYLOAD_TYPE, chunks, chunk_number)`:
the 21-byte Payload header built by `handle_udp_connection`
(server.py:138). -/
def packPayloadHeader (total_chunks chunk_number : Nat) : Bytes :=
  u32be MAGIC_COOKIE ++ [PAYLOAD_TYPE] ++ u64be total_chunks ++
    u64be chunk_number

/-! ## UDP transfer client (`initiate_udp_test`, client.py:137-197)

The receive loop (client.py:168-187) keeps two counters,
`received_segments` and `total_segment_count`.  One datagram arrival is one
iteration of the loop body; the 1-second idle timeout is modelled by the
end of the delivered-datagram list. -/

/-- The loop state of `initiate_udp_test` (client.py:164-165). -/
structure UdpClientState where
  received_segments : Nat
  total_segment_count : Nat
deriving DecidableEq

/-- How the receive loop exits: the completion break (client.py:182) or the
1-second idle timeout (client.py:184-187). -/
inductive UdpExit where
  | complete
  | idleTimeout
deriving DecidableEq

/-- One iteration of the receive loop body of `initiate_udp_test` on a
delivered datagram `data` (client.py:170-182):
`received_segments += 1`; if `len(data) < 21` continue; unpack
`'!IBQQ'` from `data[:21]` (cookie bytes 0-3, type byte 4, total segment
count bytes 5-12, chunk index bytes 13-20, the latter discarded); if the
cookie or type mismatches continue; break when
`received_segments == total_segment_count`.  Returns the new state and
whether the loop breaks. -/
def udpClientStep (s : UdpClientState) (data : Bytes) :
    UdpClientState × Bool :=
  let received := s.received_segments + 1
  if data.length < 21 then
    (⟨received, s.total_segment_count⟩, false)
  else
    let magic_cookie := beVal (data.take 4)
    let message_type := beVal ((data.drop 4).take 1)
    let total := beVal ((data.drop 5).take 8)
    if magic_cookie ≠ MAGIC_COOKIE ∨ message_type ≠ PAYLOAD_TYPE then
      (⟨received, total⟩, false)
    else if received = total then
      (⟨received, total⟩, true)
    else
      (⟨received, total⟩, false)

/-- The whole receive loop (client.py:168-187) run on the list of datagrams
that arrive before a 1-second idle gap: process datagrams in order until
the body breaks (`complete`); if the list is exhausted the idle timeout
fires (`idleTimeout`). -/
def runUdpClient (s : UdpClientState) : List Bytes → UdpClientState × UdpExit
  | [] => (s, UdpExit.idleTimeout)
  | data :: rest =>
    if (udpClientStep s data).2 then
      ((udpClientStep s data).1, UdpExit.complete)
    else runUdpClient (udpClientStep s data).1 rest

/-- The success rate computed at loop exit (client.py:190):
`(received_segments / total_segment_count) * 100 if total_segment_count != 0
else 0`, as exact rational arithmetic. -/
def success_rate (s : UdpClientState) : ℚ :=
  if s.total_segment_count ≠ 0 then
    (s.received_segments : ℚ) / (s.total_segment_count : ℚ) * 100
  else 0

/-- `segment_size = file_size // tcp_connections` (client.py:114); Python
`//` on non-negative integers is truncating division. -/
def tcp_segment_size (file_size tcp_connections : Nat) : Nat :=
  file_size / tcp_connections

/-- `segment_size = file_size // udp_connections` (client.py:158). -/
def udp_segment_size (file_size udp_connections : Nat) : Nat :=
  file_size / udp_connections

/-- The per-connection sizes requested by the TCP workers spawned in
`initiate_speed_test` (client.py:216-219): each of the `tcp_connections`
workers is passed the same `(file_size, tcp_connections)` pair and computes
its own segment size from it. -/
def tcpRequestSizes (file_size tcp_connections : Nat) : List Nat :=
  (List.range tcp_connections).map
    fun _ => tcp_segment_size file_size tcp_connections

/-- The per-connection sizes requested by the UDP workers spawned in
`initiate_speed_test` (client.py:221-224). -/
def udpRequestSizes (file_size udp_connections : Nat) : List Nat :=
  (List.range udp_connections).map
    fun _ => udp_segment_size file_size udp_connections

/-! ## Discovery listener (`listen_for_offers`, client.py:17-57) -/

/-- The receive loop of `listen_for_offers` (client.py:36-54) run on the
sequence of datagrams (sender address, bytes) delivered before the 35s
timeout: unpack `'!IBHH'` (failure → log and continue); on cookie and type
match return `(server_address, server_tcp_port, server_udp_port)`
(client.py:45); otherwise keep waiting.  `none` models the 35s timeout
path with no valid offer. -/
def listen_for_offers : List (String × Bytes) → Option (String × Nat × Nat)
  | [] => none
  | (server_address, data) :: rest =>
    match unpackOffer data with
    | some o =>
      if o.magic_cookie = MAGIC_COOKIE ∧ o.message_type = OFFER_TYPE then
        some (server_address, o.server_tcp_port, o.server_udp_port)
      else listen_for_offers rest
    | none => listen_for_offers rest

/-! ## TCP server handler (`handle_tcp_connection`, server.py:56-91) -/

/-- Python `str.strip()` on a list of characters: drop leading and trailing
whitespace (server.py:65). -/
def pyStrip (s : List Char) : List Char :=
  ((s.dropWhile Char.isWhitespace).reverse.dropWhile Char.isWhitespace).reverse

/-- Python `str.isdigit()` restricted to ASCII text: true iff the string is
non-empty and all characters are decimal digits (server.py:67). -/
def pyIsDigit (s : List Char) : Bool :=
  !s.isEmpty && s.all Char.isDigit

/-- Value of a decimal digit string, as Python `int(data)` computes it for
a string that passed `isdigit()` (server.py:71). -/
def decToNat (s : List Char) : Nat :=
  s.foldl (fun a c => a * 10 + (c.toNat - 48)) 0

/-- The chunk sizes sent by the `while total_bytes_sent < file_size_bytes`
loop of `handle_tcp_connection` (server.py:77-81), as a function of the
bytes still to send: each iteration sends
`min(1024, remaining_bytes)` filler bytes. -/
def tcpChunks (n : Nat) : List Nat :=
  if _h : 0 < n then
    min 1024 n :: tcpChunks (n - min 1024 n)
  else []
termination_by n
decreasing_by
  simp_wf
  omega

/-- Outcome of `handle_tcp_connection` (server.py:56-91): the chunk sizes
sent (`none` when the request is rejected at server.py:67-69, so nothing is
sent), and whether the socket was closed — the `finally` block
(server.py:90-91) closes it on every path. -/
structure TcpOutcome where
  sent_chunks : Option (List Nat)
  closed : Bool
deriving DecidableEq

/-- `handle_tcp_connection` (server.py:56-91) on the received request text:
strip it; reject when it is empty, not all digits, or its integer value is
not positive (`if not data or not data.isdigit() or int(data) <= 0`,
server.py:67); otherwise send `int(data)` bytes in chunks of at most 1024;
the socket is closed on every path by the `finally` block. -/
def handle_tcp_connection (request : List Char) : TcpOutcome :=
  let data := pyStrip request
  if data.isEmpty ∨ pyIsDigit data = false ∨ decToNat data = 0 then
    { sent_chunks := none, closed := true }
  else
    { sent_chunks := some (tcpChunks (decToNat data)), closed := true }

/-! ## UDP server handler (`handle_udp_connection`, server.py:110-148) -/

/-- One Payload datagram sent by the UDP server: the header fields packed at
server.py:138 and the length of the filler appended at server.py:140. -/
structure PayloadDatagram where
  magic_cookie : Nat
  message_type : Nat
  total_chunks : Nat
  chunk_index : Nat
  payload_len : Nat
deriving DecidableEq

/-- The burst of Payload datagrams sent for a request of `file_size` bytes
(server.py:134-141): `chunks = (file_size + 1024 - 1) // 1024`; for each
`chunk_number` in `range(chunks)` one datagram with header
`(MAGIC_COOKIE, PAYLOAD_TYPE, chunks, chunk_number)` and
`min(1024, file_size - chunk_number * 1024)` filler bytes. -/
def udpPayloads (file_size : Nat) : List PayloadDatagram :=
  let chunk_size := 1024
  let chunks := (file_size + chunk_size - 1) / chunk_size
  (List.range chunks).map fun chunk_number =>
    { magic_cookie := MAGIC_COOKIE, message_type := PAYLOAD_TYPE
      total_chunks := chunks, chunk_index := chunk_number
      payload_len := min chunk_size (file_size - chunk_number * chunk_size) }

/-- `handle_udp_connection` (server.py:110-148) on the received datagram:
reject unless the length is exactly 13 (server.py:123); unpack `'!IBQ'`
(cookie bytes 0-3, type byte 4, file size bytes 5-12); reject on cookie or
type mismatch (server.py:128); otherwise send the Payload burst and report
success.  `none` models the `return False` paths (nothing sent). -/
def handle_udp_connection (data : Bytes) : Option (List PayloadDatagram) :=
  if data.length ≠ 13 then none
  else
    let magic_cookie := beVal (data.take 4)
    let message_type := beVal ((data.drop 4).take 1)
    let file_size := beVal (data.drop 5)
    if magic_cookie ≠ MAGIC_COOKIE ∨ message_type ≠ REQUEST_TYPE then none
    else some (udpPayloads file_size)

/-! ## Concrete inputs used by counterexamples and witnesses -/

/-- A 20-byte all-zero datagram: shorter than a Payload header, so it fails
the `len(data) < 21` check of the UDP client loop. -/
def shortDatagram : Bytes := List.replicate 20 0

/-- A 21-byte datagram whose cookie field is 0 (not the magic cookie) and
whose total-segment-count field is 7. -/
def wrongCookiePayload : Bytes := u32be 0 ++ [0] ++ u64be 7 ++ u64be 0

/-- A delivery in which one valid Payload announcing 5 total segments is
followed by five short junk datagrams: `received_segments` climbs to 6,
passing `total_segment_count = 5` without ever triggering the completion
break. -/
def overshootRun : List Bytes :=
  packPayloadHeader 5 0 :: List.replicate 5 shortDatagram

/-! ## Theorems -/

/-- Destructure a list known to have nine elements. -/
theorem exists_nine {α : Type} (l : List α) (hl : l.length = 9) :
    ∃ a b c d e f g h i, l = [a, b, c, d, e, f, g, h, i] := by
  rcases l with _ | ⟨a, l⟩; · simp at hl
  rcases l with _ | ⟨b, l⟩; · simp at hl
  rcases l with _ | ⟨c, l⟩; · simp at hl
  rcases l with _ | ⟨d, l⟩; · simp at hl
  rcases l with _ | ⟨e, l⟩; · simp at hl
  rcases l with _ | ⟨f, l⟩; · simp at hl
  rcases l with _ | ⟨g, l⟩; · simp at hl
  rcases l with _ | ⟨h, l⟩; · simp at hl
  rcases l with _ | ⟨i, l⟩; · simp at hl
  rcases l with _ | ⟨j, l⟩
  · exact ⟨a, b, c, d, e, f, g, h, i, rfl⟩
  · simp at hl

/-- C6: For every valid 9-byte Offer message, decoding it into its four
fields (magic cookie, type, UDP port, TCP port) and re-encoding those
fields with the Offer layout reproduces the original 9 bytes (round-trip
identity of the Offer codec). -/
theorem offer_roundtrip (data : Bytes) (o : Offer)
    (hbytes : ∀ b ∈ data, b < 256)
    (hdec : unpackOffer data = some o)
    (hcookie : o.magic_cookie = MAGIC_COOKIE)
    (htype : o.message_type = OFFER_TYPE) :
    packOffer o = data := by
  unfold unpackOffer at hdec
  split at hdec
  case isFalse => exact absurd hdec (by simp)
  case isTrue hlen =>
    obtain ⟨a, b, c, d, e, f, g, h, i, rfl⟩ := exists_nine data hlen
    have ha : a < 256 := hbytes a (by simp)
    have hb : b < 256 := hbytes b (by simp)
    have hc : c < 256 := hbytes c (by simp)
    have hd : d < 256 := hbytes d (by simp)
    have he : e < 256 := hbytes e (by simp)
    have hf : f < 256 := hbytes f (by simp)
    have hg : g < 256 := hbytes g (by simp)
    have hh : h < 256 := hbytes h (by simp)
    have hi : i < 256 := hbytes i (by simp)
    obtain rfl : _ = o := Option.some.injEq _ _ ▸ hdec
    simp only [packOffer, u32be, u16be, beVal, List.take, List.drop,
      List.foldl, List.cons_append, List.nil_append, List.cons.injEq,
      and_true]
    omega

/-- Witness for C6 at a concrete valid Offer (UDP port 15000, TCP port
16000, the repository defaults). -/
theorem offer_roundtrip_witness :
    packOffer ⟨MAGIC_COOKIE, OFFER_TYPE, 15000, 16000⟩ =
      [0xab, 0xcd, 0xdc, 0xba, 0x02, 0x3a, 0x98, 0x3e, 0x80] := by
  have h := offer_roundtrip
    [0xab, 0xcd, 0xdc, 0xba, 0x02, 0x3a, 0x98, 0x3e, 0x80]
    ⟨MAGIC_COOKIE, OFFER_TYPE, 15000, 16000⟩
    (by decide) (by decide) rfl rfl
  exact h

/-- Counterexample to C1: the claim says a datagram failing the validity
checks leaves `received_segments` and `total_segment_count` unchanged, but
the loop body increments `received_segments` before any check: a 20-byte
datagram (failing the length check) moves the state from `⟨0, 0⟩` to
`⟨1, 0⟩`. -/
theorem c1_increment_on_invalid_counterexample :
    (udpClientStep ⟨0, 0⟩ shortDatagram).1 = ⟨1, 0⟩ ∧
      ((⟨1, 0⟩ : UdpClientState) ≠ ⟨0, 0⟩) := by
  decide

/-- C1 (amended): in the receive loop body, `received_segments` is
incremented on every delivered datagram, valid or not; a datagram shorter
than 21 bytes leaves `total_segment_count` unchanged; and every datagram of
length at least 21 has `total_segment_count` recorded from its header
(bytes 5-12, big endian) regardless of the cookie and type checks. -/
theorem c1_counter_updates (s : UdpClientState) (data : Bytes) :
    (udpClientStep s data).1.received_segments = s.received_segments + 1 ∧
    (data.length < 21 →
      (udpClientStep s data).1.total_segment_count = s.total_segment_count) ∧
    (21 ≤ data.length →
      (udpClientStep s data).1.total_segment_count =
        beVal ((data.drop 5).take 8)) := by
  unfold udpClientStep
  split
  case isTrue hlen =>
    exact ⟨rfl, fun _ => rfl, fun hge => absurd hlen (by omega)⟩
  case isFalse hlen =>
    dsimp only
    refine ⟨?_, fun hlt => absurd hlt hlen, fun _ => ?_⟩ <;>
      (split <;> first | rfl | (split <;> rfl))

/-- Witness for C1 (amended) at state `⟨0, 0⟩`: the 20-byte datagram
increments the counter and leaves the total unchanged. -/
theorem c1_counter_updates_witness :
    (udpClientStep ⟨0, 0⟩ shortDatagram).1.received_segments = 0 + 1 ∧
      (udpClientStep ⟨0, 0⟩ shortDatagram).1.total_segment_count = 0 := by
  have h := c1_counter_updates ⟨0, 0⟩ shortDatagram
  exact ⟨h.1, h.2.1 (by decide)⟩

/-- A loop-body iteration that breaks leaves `received_segments` equal to
`total_segment_count`, and positive (the counter was just incremented). -/
theorem udpClientStep_break (s : UdpClientState) (data : Bytes)
    (s' : UdpClientState) (h : udpClientStep s data = (s', true)) :
    s'.received_segments = s'.total_segment_count ∧
      0 < s'.received_segments := by
  unfold udpClientStep at h
  split at h
  · exact absurd (congrArg Prod.snd h) (by simp)
  · dsimp only at h
    split at h
    · exact absurd (congrArg Prod.snd h) (by simp)
    · split at h
      case isTrue heq =>
        injection h with h1 h2
        subst h1
        exact ⟨heq, Nat.succ_pos _⟩
      case isFalse =>
        exact absurd (congrArg Prod.snd h) (by simp)

/-- If the receive loop exits through the completion break, the final
counters are equal and positive. -/
theorem runUdpClient_complete (ds : List Bytes) :
    ∀ (s₀ s : UdpClientState),
      runUdpClient s₀ ds = (s, UdpExit.complete) →
      s.received_segments = s.total_segment_count ∧
        0 < s.received_segments := by
  induction ds with
  | nil =>
    intro s₀ s h
    simp [runUdpClient] at h
  | cons data rest ih =>
    intro s₀ s h
    unfold runUdpClient at h
    split at h
    case isTrue hbrk =>
      injection h with h1 h2
      have hstep : udpClientStep s₀ data = (s, true) := by
        have heta := Prod.mk.eta (p := udpClientStep s₀ data)
        rw [← heta, hbrk, h1]
      exact udpClientStep_break s₀ data s hstep
    case isFalse =>
      exact ih _ s h

/-- Counterexample to C2: at the empty delivery the loop exits by idle
timeout with `received_segments = total_segment_count = 0` and success rate
`0`, not `100` as the claim's first clause demands; and on `overshootRun`
the loop exits by idle timeout (never completing) with success rate `120`,
outside the claimed interval `[0, 100)`. -/
theorem c2_success_rate_counterexample :
    runUdpClient ⟨0, 0⟩ [] = (⟨0, 0⟩, UdpExit.idleTimeout) ∧
    success_rate ⟨0, 0⟩ ≠ 100 ∧
    runUdpClient ⟨0, 0⟩ overshootRun = (⟨6, 5⟩, UdpExit.idleTimeout) ∧
    success_rate ⟨6, 5⟩ = 120 := by
  refine ⟨by decide, ?_, by decide, ?_⟩
  · norm_num [success_rate]
  · norm_num [success_rate]

/-- C2 (amended): at loop exit the success rate is exactly 100 whenever the
loop exited through the completion break (and then the counters are equal
and non-zero); it is 0 whenever `total_segment_count` is 0 — including the
idle-timeout exit with no datagram, where the counters are equal but the
rate is 0, not 100; and on any exit with
`received_segments < total_segment_count` it lies in `[0, 100)` — but an
idle-timeout exit can also leave `received_segments` above
`total_segment_count`, with a rate above 100. -/
theorem c2_success_rate_cases (s₀ : UdpClientState) (ds : List Bytes)
    (s : UdpClientState) (ex : UdpExit)
    (hrun : runUdpClient s₀ ds = (s, ex)) :
    (ex = UdpExit.complete → success_rate s = 100) ∧
    (s.total_segment_count = 0 → success_rate s = 0) ∧
    (s.received_segments < s.total_segment_count →
      0 ≤ success_rate s ∧ success_rate s < 100) := by
  refine ⟨?_, ?_, ?_⟩
  · intro hex
    subst hex
    obtain ⟨heq, hpos⟩ := runUdpClient_complete ds s₀ s hrun
    have ht : s.total_segment_count ≠ 0 := by omega
    rw [success_rate, if_pos ht, heq,
      div_self (by exact_mod_cast ht)]
    norm_num
  · intro ht
    simp [success_rate, ht]
  · intro hlt
    have ht : s.total_segment_count ≠ 0 := by omega
    have htQ : (0 : ℚ) < s.total_segment_count := by
      exact_mod_cast Nat.pos_of_ne_zero ht
    rw [success_rate, if_pos ht]
    constructor
    · positivity
    · have h1 : (s.received_segments : ℚ) / s.total_segment_count < 1 :=
        (div_lt_one htQ).mpr (by exact_mod_cast hlt)
      calc (s.received_segments : ℚ) / s.total_segment_count * 100
          < 1 * 100 := by
            exact mul_lt_mul_of_pos_right h1 (by norm_num)
        _ = 100 := by norm_num

/-- Witness for C2 (amended): a single valid Payload announcing one total
segment completes the loop and yields success rate 100. -/
theorem c2_success_rate_cases_witness : success_rate ⟨1, 1⟩ = 100 := by
  have h := c2_success_rate_cases ⟨0, 0⟩ [packPayloadHeader 1 0]
    ⟨1, 1⟩ UdpExit.complete (by decide)
  exact h.1 rfl

/-- Counterexample to C3: the claim says the client's Payload handler
treats a wrong-cookie datagram as discarded "without effect on the transfer
state", but a 21-byte datagram with cookie 0 moves the state from `⟨0, 0⟩`
to `⟨1, 7⟩`: the arrival counter is incremented and the total is
overwritten from the junk header. -/
theorem c3_wrong_cookie_counterexample :
    (udpClientStep ⟨0, 0⟩ wrongCookiePayload).1 = ⟨1, 7⟩ ∧
      ((⟨1, 7⟩ : UdpClientState) ≠ ⟨0, 0⟩) := by
  decide

/-- C3 (amended): for every datagram whose first 4 bytes are not the magic
cookie, the UDP server's Request handler sends no Payload datagrams, and
the UDP client's Payload handler never triggers the completion break on
it — but the client still counts its arrival (`received_segments` is
incremented). -/
theorem c3_cookie_mismatch (data : Bytes)
    (hcookie : beVal (data.take 4) ≠ MAGIC_COOKIE) :
    handle_udp_connection data = none ∧
    ∀ s : UdpClientState,
      (udpClientStep s data).2 = false ∧
      (udpClientStep s data).1.received_segments =
        s.received_segments + 1 := by
  constructor
  · unfold handle_udp_connection
    split
    · rfl
    · dsimp only
      rw [if_pos (Or.inl hcookie)]
  · intro s
    unfold udpClientStep
    split
    · exact ⟨rfl, rfl⟩
    · dsimp only
      rw [if_pos (Or.inl hcookie)]
      exact ⟨rfl, rfl⟩

/-- Witness for C3 (amended) at the concrete wrong-cookie datagram and
state `⟨0, 0⟩`. -/
theorem c3_cookie_mismatch_witness :
    handle_udp_connection wrongCookiePayload = none ∧
      (udpClientStep ⟨0, 0⟩ wrongCookiePayload).2 = false := by
  have h := c3_cookie_mismatch wrongCookiePayload (by decide)
  exact ⟨h.1, (h.2 ⟨0, 0⟩).1⟩

/-- The chunk sizes of the TCP send loop add up to exactly the requested
byte count. -/
theorem tcpChunks_sum (n : Nat) : (tcpChunks n).sum = n := by
  induction n using Nat.strong_induction_on with
  | _ n ih =>
    rw [tcpChunks]
    split
    case isTrue hpos =>
      rw [List.sum_cons, ih (n - min 1024 n) (by omega)]
      omega
    case isFalse hpos =>
      simp
      omega

/-- Every chunk of the TCP send loop is non-empty and at most 1024 bytes. -/
theorem tcpChunks_bounds (n : Nat) :
    ∀ c ∈ tcpChunks n, 0 < c ∧ c ≤ 1024 := by
  induction n using Nat.strong_induction_on with
  | _ n ih =>
    intro c hc
    rw [tcpChunks] at hc
    split at hc
    case isTrue hpos =>
      rcases List.mem_cons.mp hc with rfl | hmem
      · omega
      · exact ih (n - min 1024 n) (by omega) c hmem
    case isFalse hpos =>
      simp at hc

/-- C4: for every positive integer `n` received as the request line, the
TCP connection handler sends exactly `n` bytes in total, each write being a
chunk of at most 1024 bytes, and then closes the connection. -/
theorem c4_tcp_sends_exactly (request : List Char) (n : Nat)
    (hdigit : pyIsDigit (pyStrip request) = true)
    (hval : decToNat (pyStrip request) = n)
    (hpos : 0 < n) :
    (handle_tcp_connection request).sent_chunks = some (tcpChunks n) ∧
    (tcpChunks n).sum = n ∧
    (∀ c ∈ tcpChunks n, c ≤ 1024) ∧
    (handle_tcp_connection request).closed = true := by
  have hcond : ¬((pyStrip request).isEmpty = true ∨
      pyIsDigit (pyStrip request) = false ∨
      decToNat (pyStrip request) = 0) := by
    rintro (h | h | h)
    · rw [pyIsDigit, h] at hdigit
      simp at hdigit
    · rw [h] at hdigit
      simp at hdigit
    · rw [hval] at h
      omega
  unfold handle_tcp_connection
  rw [if_neg hcond, hval]
  exact ⟨rfl, tcpChunks_sum n,
    fun c hc => (tcpChunks_bounds n c hc).2, rfl⟩

/-- Witness for C4 at the concrete request line `"2500\n"`. -/
theorem c4_tcp_sends_exactly_witness :
    (handle_tcp_connection ['2', '5', '0', '0', '\n']).sent_chunks =
        some (tcpChunks 2500) ∧
      (tcpChunks 2500).sum = 2500 := by
  have h := c4_tcp_sends_exactly ['2', '5', '0', '0', '\n'] 2500
    (by decide) (by decide) (by decide)
  exact ⟨h.1, h.2.1⟩

/-- C9: for every TCP request line whose stripped content is empty, not a
decimal digit string, or whose integer value is zero, the connection
handler aborts without sending any data bytes (and, the handler being a
per-connection function, nothing else is affected). -/
theorem c9_invalid_request_aborts (request : List Char)
    (hbad : (pyStrip request).isEmpty = true ∨
      pyIsDigit (pyStrip request) = false ∨
      decToNat (pyStrip request) = 0) :
    (handle_tcp_connection request).sent_chunks = none ∧
      (handle_tcp_connection request).closed = true := by
  unfold handle_tcp_connection
  rw [if_pos hbad]
  exact ⟨rfl, rfl⟩

/-- Witness for C9 at the concrete request line `"0"` (a digit string whose
value is not positive). -/
theorem c9_invalid_request_aborts_witness :
    (handle_tcp_connection ['0']).sent_chunks = none := by
  exact (c9_invalid_request_aborts ['0'] (Or.inr (Or.inr (by decide)))).1

/-- C10: a well-formed 13-byte Request with correct cookie and type asking
for 0 bytes makes the UDP server handler send zero Payload datagrams and
report success, whereas the TCP handler rejects the request line `"0"`:
the UDP path does not validate that the requested size is positive. -/
theorem c10_zero_size_request :
    handle_udp_connection (packRequest 0) = some [] ∧
      (handle_tcp_connection ['0']).sent_chunks = none := by
  constructor
  · decide
  · decide

/-- C5: for every valid Request, the UDP server sends exactly
`ceil(file_size / 1024)` Payload datagrams, with `total_chunks` equal to
that count, `chunk_index` ranging over `0..chunks-1`, and each payload
sized `min(1024, remaining bytes)`. -/
theorem c5_udp_payload_burst (data : Bytes) (ds : List PayloadDatagram)
    (h : handle_udp_connection data = some ds) :
    ds.length = (beVal (data.drop 5) + 1023) / 1024 ∧
    ∀ k (hk : k < ds.length),
      ds.get ⟨k, hk⟩ =
        { magic_cookie := MAGIC_COOKIE, message_type := PAYLOAD_TYPE
          total_chunks := ds.length, chunk_index := k
          payload_len := min 1024 (beVal (data.drop 5) - k * 1024) } := by
  unfold handle_udp_connection at h
  split at h
  · exact absurd h (by simp)
  · dsimp only at h
    split at h
    · exact absurd h (by simp)
    · injection h with h1
      subst h1
      constructor
      · simp only [udpPayloads, List.length_map, List.length_range]
        omega
      · intro k hk
        simp only [udpPayloads, List.length_map, List.length_range,
          List.get_eq_getElem, List.getElem_map, List.getElem_range,
          PayloadDatagram.mk.injEq] at hk ⊢

/-- Witness for C5 at the concrete request size 2500: three datagrams, all
with `total_chunks = 3`, indices 0, 1, 2, and final payload length 452. -/
theorem c5_udp_payload_burst_witness :
    handle_udp_connection (packRequest 2500) = some (udpPayloads 2500) ∧
    (udpPayloads 2500).length = 3 ∧
    ((udpPayloads 2500).getD 0 ⟨0, 0, 0, 0, 0⟩).chunk_index = 0 ∧
    ((udpPayloads 2500).getD 1 ⟨0, 0, 0, 0, 0⟩).chunk_index = 1 ∧
    ((udpPayloads 2500).getD 2 ⟨0, 0, 0, 0, 0⟩).chunk_index = 2 ∧
    ((udpPayloads 2500).getD 2 ⟨0, 0, 0, 0, 0⟩).total_chunks = 3 ∧
    ((udpPayloads 2500).getD 2 ⟨0, 0, 0, 0, 0⟩).payload_len = 452 := by
  have h := c5_udp_payload_burst (packRequest 2500) (udpPayloads 2500)
    (by decide)
  refine ⟨by decide, ?_, by decide, by decide, by decide, by decide,
    by decide⟩
  rw [h.1]
  decide

/-- C7: the discovery listener skips every datagram that is malformed or
whose cookie or type mismatches, continuing to wait, and on the first valid
Offer returns `(server address, server TCP port, server UDP port)`, the UDP
port read from bytes 5-6 and the TCP port from bytes 7-8 of the datagram,
terminating there (one-shot). -/
theorem c7_discovery_listener (server_address : String) (data : Bytes)
    (rest : List (String × Bytes)) :
    ((unpackOffer data = none ∨
        ∃ o, unpackOffer data = some o ∧
          ¬(o.magic_cookie = MAGIC_COOKIE ∧ o.message_type = OFFER_TYPE)) →
      listen_for_offers ((server_address, data) :: rest) =
        listen_for_offers rest) ∧
    (data.length = 9 → beVal (data.take 4) = MAGIC_COOKIE →
      beVal ((data.drop 4).take 1) = OFFER_TYPE →
      listen_for_offers ((server_address, data) :: rest) =
        some (server_address, beVal ((data.drop 7).take 2),
          beVal ((data.drop 5).take 2))) := by
  constructor
  · rintro (hnone | ⟨o, ho, hmis⟩)
    · simp [listen_for_offers, hnone]
    · simp [listen_for_offers, ho, hmis]
  · intro h9 hcookie htype
    have ho : unpackOffer data =
        some { magic_cookie := beVal (data.take 4)
               message_type := beVal ((data.drop 4).take 1)
               server_udp_port := beVal ((data.drop 5).take 2)
               server_tcp_port := beVal ((data.drop 7).take 2) } := by
      rw [unpackOffer, if_pos h9]
    simp [listen_for_offers, ho, hcookie, htype]

/-- Witness for C7 at a concrete valid Offer datagram: the listener returns
the sender address with TCP port 16000 (bytes 7-8) and UDP port 15000
(bytes 5-6). -/
theorem c7_discovery_listener_witness :
    listen_for_offers
        [("10.0.0.7", [0xab, 0xcd, 0xdc, 0xba, 0x02, 0x3a, 0x98, 0x3e, 0x80])] =
      some ("10.0.0.7", 16000, 15000) := by
  have h := (c7_discovery_listener "10.0.0.7"
    [0xab, 0xcd, 0xdc, 0xba, 0x02, 0x3a, 0x98, 0x3e, 0x80] []).2
    (by decide) (by decide) (by decide)
  exact h.trans (by decide)

/-- C8: both transfer clients request a per-connection segment size of
exactly `file_size / connections` (truncating integer division): every
spawned worker requests the same size, so the spawned requests add up to
`file_size - file_size % connections` — the remainder is dropped, not
redistributed. -/
theorem c8_segment_sizing (file_size n : Nat) (_hn : 0 < n) :
    tcp_segment_size file_size n = file_size / n ∧
    udp_segment_size file_size n = file_size / n ∧
    (∀ x ∈ tcpRequestSizes file_size n, x = file_size / n) ∧
    (∀ x ∈ udpRequestSizes file_size n, x = file_size / n) ∧
    (tcpRequestSizes file_size n).sum = file_size - file_size % n ∧
    (udpRequestSizes file_size n).sum = file_size - file_size % n := by
  have hrep : ∀ c : Nat, ((List.range n).map fun _ => c) =
      List.replicate n c := by
    intro c
    rw [List.map_const', List.length_range]
  have hsum : (List.replicate n (file_size / n)).sum =
      file_size - file_size % n := by
    rw [List.sum_replicate, smul_eq_mul]
    have := Nat.div_add_mod file_size n
    omega
  refine ⟨rfl, rfl, ?_, ?_, ?_, ?_⟩
  · intro x hx
    simp only [tcpRequestSizes, tcp_segment_size, List.mem_map] at hx
    obtain ⟨a, -, rfl⟩ := hx
    rfl
  · intro x hx
    simp only [udpRequestSizes, udp_segment_size, List.mem_map] at hx
    obtain ⟨a, -, rfl⟩ := hx
    rfl
  · rw [tcpRequestSizes, tcp_segment_size, hrep, hsum]
  · rw [udpRequestSizes, udp_segment_size, hrep, hsum]

/-- Witness for C8 at `file_size = 10`, `connections = 3`: every worker
requests 3 bytes and the three requests add up to 9, dropping the
remainder byte. -/
theorem c8_segment_sizing_witness :
    tcp_segment_size 10 3 = 3 ∧ (tcpRequestSizes 10 3).sum = 9 := by
  have h := c8_segment_sizing 10 3 (by decide)
  exact ⟨h.1.trans (by decide), h.2.2.2.2.1.trans (by decide)⟩

end SpeedTest
